import Mathlib

/- Verification development for the Physico physics engine
   (the `PhysicsEngine` React component).

   The simulation core is embedded shallowly:
   * JS numbers are modelled as elements of a linear ordered field
     (instantiated at `ℝ` for the claims, and at `ℚ` when a witness is
     evaluated by `decide`); `Math.sqrt` forces the real-valued
     specialisations of the collision detector and resolver.
   * `Math.random()` draws are made explicit arguments (a draw stream
     `ℕ → ℝ` for the tick loop).
   * The asynchronous sprite loading (`loadImage` / `Promise.all`) is
     modelled with `Except`: `Promise.all` fails as soon as one of its
     promises fails, exactly like the JS batch wait.
   * For the degenerate-geometry behaviour of the collision resolver a
     second model `hcrJS` tracks JS non-finite values (`NaN`, `±Infinity`)
     explicitly as `none : Option ℝ`, since real-number division by zero in
     Lean (`x / 0 = 0`) silently differs from the JS semantics there.  On
     pairs at positive distance the two models agree with the source. -/

namespace Physico

/-- One simulated body, mirroring the object literals built in
`createObjects` and `reproduceObject`.  The `sprite` field is an opaque
handle to the externally loaded image.  `reproductionChance` is an
`Option` because the child literal in `reproduceObject` omits the field
(JS `undefined`), while `createObjects` always sets it. -/
structure Body (α : Type) where
  x : α
  y : α
  width : α
  height : α
  sprite : Nat
  velocityX : α
  velocityY : α
  angle : α
  angularVelocity : α
  scale : α
  mass : α
  reproductionChance : Option α
  deriving DecidableEq

/-- The configuration surface of the component (props with defaults
`gravity = 0.2`, `friction = 0.99`, `bounceFriction = 0.7`, `drag = 0.99`,
`maxObjects = 20`, `angularVelocityFactor = 0.05`, `objectCount = 5`).
`friction` is dead configuration: it is never read by the simulation. -/
structure Config (α : Type) where
  gravity : α
  friction : α
  bounceFriction : α
  drag : α
  maxObjects : Nat
  angularVelocityFactor : α
  objectCount : Nat
  deriving DecidableEq

/-- JS helper `randomBetween(min, max) = Math.random() * (max - min) + min`;
the `Math.random()` draw is made explicit as the argument `r`. -/
def randomBetween {α : Type} [LinearOrderedField α] (lo hi r : α) : α :=
  r * (hi - lo) + lo

/-- The comparison `Math.random() < obj.reproductionChance`.  When the field
is absent (JS `undefined`) the comparison evaluates to `NaN < r`, which is
false, hence the `none` case is `False`. -/
def chanceLt {α : Type} [LinearOrder α] (r : α) : Option α → Prop
  | some c => r < c
  | none => False

instance {α : Type} [LinearOrder α] (r : α) (o : Option α) :
    Decidable (chanceLt r o) :=
  match o with
  | some c => inferInstanceAs (Decidable (r < c))
  | none => isFalse fun h => h

/-- `updateObject(obj, width, height)`: one integrator step for one body.
Order as in the source: gravity, drag, position update, wall-bounce test on
the updated position, clamp of the position into the viewport, angular
spin, and the scale pulse (reset check first, then `+= 0.01`). -/
def updateObject {α : Type} [LinearOrderedField α]
    (cfg : Config α) (width height : α) (obj : Body α) : Body α :=
  let vY1 := obj.velocityY + cfg.gravity
  let vX1 := obj.velocityX * cfg.drag
  let vY2 := vY1 * cfg.drag
  let x1 := obj.x + vX1
  let y1 := obj.y + vY2
  let vX2 := if x1 + obj.width / 2 > width ∨ x1 - obj.width / 2 < 0 then
    -vX1 * cfg.bounceFriction else vX1
  let vY3 := if y1 + obj.height / 2 > height ∨ y1 - obj.height / 2 < 0 then
    -vY2 * cfg.bounceFriction else vY2
  let x2 := min (max (obj.width / 2) x1) (width - obj.width / 2)
  let y2 := min (max (obj.height / 2) y1) (height - obj.height / 2)
  let angle1 := obj.angle + obj.angularVelocity
  let scale1 := if obj.scale ≥ 3 / 2 then (1 : α) else obj.scale
  { obj with
    velocityX := vX2
    velocityY := vY3
    x := x2
    y := y2
    angle := angle1
    scale := scale1 + 1 / 100 }

/-- `reproduceObject(obj, obj2)`.  `objectsLen` is the length of the
component state array `objects` read through the closure (the start-of-tick
population, not the length of the `newObjects` array being built).  The
guard draw `r` and the four `randomBetween` draws are explicit.  Note that
the child literal in the source has no `reproductionChance` field. -/
def reproduceObject {α : Type} [LinearOrderedField α]
    (cfg : Config α) (objectsLen : Nat) (r rv1 rv2 ra rav : α)
    (obj obj2 : Body α) : Option (Body α) :=
  if chanceLt r obj.reproductionChance ∧ objectsLen < cfg.maxObjects then
    some
      { x := (obj.x + obj2.x) / 2
        y := (obj.y + obj2.y) / 2
        width := (obj.width + obj2.width) / 2
        height := (obj.height + obj2.height) / 2
        sprite := obj.sprite
        velocityX := randomBetween (-5) 5 rv1
        velocityY := randomBetween (-5) 5 rv2
        angle := randomBetween 0 360 ra
        angularVelocity :=
          randomBetween (-cfg.angularVelocityFactor) cfg.angularVelocityFactor rav
        scale := 1
        mass := 1
        reproductionChance := none }
  else none

/-- `detectCollisions(obj1, obj2)`: Euclidean distance between centers
strictly below the mean of the two widths. -/
noncomputable def detectCollisions (obj1 obj2 : Body ℝ) : Bool :=
  let distX := obj1.x - obj2.x
  let distY := obj1.y - obj2.y
  let distance := Real.sqrt (distX * distX + distY * distY)
  decide (distance < (obj1.width + obj2.width) / 2)

/-- The quantity `speed` computed by `handleCollisionResponse`: the dot
product of the relative velocity `obj1.velocity - obj2.velocity` with the
unit normal pointing from `obj1` to `obj2`. -/
noncomputable def closingSpeed (obj1 obj2 : Body ℝ) : ℝ :=
  let vCollisionX := obj2.x - obj1.x
  let vCollisionY := obj2.y - obj1.y
  let distance := Real.sqrt (vCollisionX ^ 2 + vCollisionY ^ 2)
  (obj1.velocityX - obj2.velocityX) * (vCollisionX / distance) +
    (obj1.velocityY - obj2.velocityY) * (vCollisionY / distance)

/-- `handleCollisionResponse(obj1, obj2)`: elastic impulse exchange.  The
source returns early (leaving both bodies untouched) when `speed < 0`;
otherwise it applies the impulse to both bodies in place, which is modelled
by returning the updated pair.  This real-number model agrees with the JS
source whenever the two centers are at positive distance; the
zero-distance behaviour (JS `NaN` propagation) is modelled by `hcrJS`. -/
noncomputable def handleCollisionResponse (obj1 obj2 : Body ℝ) :
    Body ℝ × Body ℝ :=
  let vCollisionX := obj2.x - obj1.x
  let vCollisionY := obj2.y - obj1.y
  let distance := Real.sqrt (vCollisionX ^ 2 + vCollisionY ^ 2)
  let vCollisionNormX := vCollisionX / distance
  let vCollisionNormY := vCollisionY / distance
  let vRelativeVelocityX := obj1.velocityX - obj2.velocityX
  let vRelativeVelocityY := obj1.velocityY - obj2.velocityY
  let speed := vRelativeVelocityX * vCollisionNormX +
    vRelativeVelocityY * vCollisionNormY
  if speed < 0 then (obj1, obj2)
  else
    let impulse := 2 * speed / (obj1.mass + obj2.mass)
    ({ obj1 with
        velocityX := obj1.velocityX - impulse * obj2.mass * vCollisionNormX
        velocityY := obj1.velocityY - impulse * obj2.mass * vCollisionNormY },
     { obj2 with
        velocityX := obj2.velocityX + impulse * obj1.mass * vCollisionNormX
        velocityY := obj2.velocityY + impulse * obj1.mass * vCollisionNormY })

/-- `loadImage(src)`: resolves to an image handle or rejects.  The
asynchronous resolution is modelled by an oracle `resolve` telling for each
URL whether (and to what handle) it resolves; a rejection carries the
offending URL. -/
def loadImage (resolve : String → Option Nat) (src : String) :
    Except String Nat :=
  match resolve src with
  | some img => Except.ok img
  | none => Except.error src

/-- `Promise.all`: succeeds with the list of all results iff every promise
succeeds, and rejects as soon as one of them rejects. -/
def promiseAll {ε α : Type} : List (Except ε α) → Except ε (List α)
  | [] => Except.ok []
  | Except.ok a :: rest =>
    match promiseAll rest with
    | Except.ok as => Except.ok (a :: as)
    | Except.error e => Except.error e
  | Except.error e :: _ => Except.error e

/-- `createObjects()`: awaits `Promise.all(userImages.map(loadImage))` and
then builds `objectCount` bodies, assigning sprites round-robin
(`images[i % images.length]`).  Each body consumes eight `Math.random()`
draws from the stream `rng`, in source order. -/
def createObjects {α : Type} [LinearOrderedField α]
    (cfg : Config α) (innerWidth innerHeight : α) (rng : Nat → α)
    (resolve : String → Option Nat) (userImages : List String) :
    Except String (List (Body α)) :=
  match promiseAll (userImages.map (loadImage resolve)) with
  | Except.error e => Except.error e
  | Except.ok images =>
    Except.ok ((List.range cfg.objectCount).map fun i =>
      { x := randomBetween 50 (innerWidth - 50) (rng (8 * i))
        y := randomBetween 50 (innerHeight - 50) (rng (8 * i + 1))
        width := randomBetween 30 50 (rng (8 * i + 2))
        height := randomBetween 30 50 (rng (8 * i + 3))
        sprite := images.getD (i % images.length) 0
        velocityX := randomBetween (-5) 5 (rng (8 * i + 4))
        velocityY := randomBetween (-5) 5 (rng (8 * i + 5))
        angle := randomBetween 0 360 (rng (8 * i + 6))
        angularVelocity :=
          randomBetween (-cfg.angularVelocityFactor) cfg.angularVelocityFactor
            (rng (8 * i + 7))
        scale := 1
        mass := 1
        reproductionChance := some (1 / 100) })

/-- JS addition on possibly non-finite numbers: any operand that is
`NaN`/`±Infinity` (modelled as `none`) makes the result non-finite. -/
def jsAdd : Option ℝ → Option ℝ → Option ℝ
  | some a, some b => some (a + b)
  | _, _ => none

/-- JS subtraction on possibly non-finite numbers. -/
def jsSub : Option ℝ → Option ℝ → Option ℝ
  | some a, some b => some (a - b)
  | _, _ => none

/-- JS multiplication on possibly non-finite numbers (a non-finite operand
always yields a non-finite result: `NaN * x = NaN`, `Infinity * 0 = NaN`,
`Infinity * x = ±Infinity`). -/
def jsMul : Option ℝ → Option ℝ → Option ℝ
  | some a, some b => some (a * b)
  | _, _ => none

/-- JS division: dividing by `0` yields a non-finite result (`0 / 0 = NaN`,
`x / 0 = ±Infinity`), and non-finite operands propagate. -/
noncomputable def jsDiv : Option ℝ → Option ℝ → Option ℝ
  | some a, some b => if b = 0 then none else some (a / b)
  | _, _ => none

/-- JS `Math.sqrt`: `NaN` on negative or non-finite input. -/
noncomputable def jsSqrt : Option ℝ → Option ℝ
  | some a => if a < 0 then none else some (Real.sqrt a)
  | none => none

/-- JS `<` comparison: false whenever an operand is `NaN`; the non-finite
cases of this model are only ever reached with `NaN` operands. -/
noncomputable def jsLt : Option ℝ → Option ℝ → Bool
  | some a, some b => decide (a < b)
  | _, _ => false

/-- `handleCollisionResponse` under JS number semantics, tracking
non-finite intermediate values.  Inputs are the finite positions,
velocities and masses of the two bodies; the result is the pair of
velocity vectors ((v1x, v1y), (v2x, v2y)) after the call, each component
`none` when the call leaves it non-finite. -/
noncomputable def hcrJS (p1x p1y v1x v1y m1 p2x p2y v2x v2y m2 : ℝ) :
    (Option ℝ × Option ℝ) × (Option ℝ × Option ℝ) :=
  let vCollisionX := jsSub (some p2x) (some p1x)
  let vCollisionY := jsSub (some p2y) (some p1y)
  let distance :=
    jsSqrt (jsAdd (jsMul vCollisionX vCollisionX) (jsMul vCollisionY vCollisionY))
  let vCollisionNormX := jsDiv vCollisionX distance
  let vCollisionNormY := jsDiv vCollisionY distance
  let vRelX := jsSub (some v1x) (some v2x)
  let vRelY := jsSub (some v1y) (some v2y)
  let speed := jsAdd (jsMul vRelX vCollisionNormX) (jsMul vRelY vCollisionNormY)
  if jsLt speed (some 0) then ((some v1x, some v1y), (some v2x, some v2y))
  else
    let impulse := jsDiv (jsMul (some 2) speed) (jsAdd (some m1) (some m2))
    ((jsSub (some v1x) (jsMul (jsMul impulse (some m2)) vCollisionNormX),
      jsSub (some v1y) (jsMul (jsMul impulse (some m2)) vCollisionNormY)),
     (jsAdd (some v2x) (jsMul (jsMul impulse (some m1)) vCollisionNormX),
      jsAdd (some v2y) (jsMul (jsMul impulse (some m1)) vCollisionNormY)))

/-- Working state of one `animate` tick: the component state array
`objects` (whose elements are mutated in place), the children pushed onto
`newObjects` beyond the shared prefix, and the index of the next
`Math.random()` draw. -/
structure TickState where
  objs : List (Body ℝ)
  spawned : List (Body ℝ)
  k : Nat

/-- Used for out-of-range array reads; never actually reached on the index
ranges the tick loop uses. -/
noncomputable def defaultBody : Body ℝ :=
  { x := 0, y := 0, width := 0, height := 0, sprite := 0, velocityX := 0,
    velocityY := 0, angle := 0, angularVelocity := 0, scale := 0, mass := 0,
    reproductionChance := none }

/-- Body of the inner `for` loop of `animate` for the pair `(idx, i)`:
re-read both bodies (earlier pairs may have mutated them), test the
collision, and on collision resolve it in place and attempt reproduction
against the stale snapshot length `n = objects.length`, pushing any child
onto `newObjects`.  The guard draw is consumed whenever `reproduceObject`
runs; the four child draws only when a child is built. -/
noncomputable def pairStep (cfg : Config ℝ) (rng : Nat → ℝ) (n idx : Nat)
    (st : TickState) (i : Nat) : TickState :=
  let obj := st.objs.getD idx defaultBody
  let obj2 := st.objs.getD i defaultBody
  if detectCollisions obj obj2 then
    let res := handleCollisionResponse obj obj2
    let objs1 := (st.objs.set idx res.1).set i res.2
    match reproduceObject cfg n (rng st.k) (rng (st.k + 1)) (rng (st.k + 2))
        (rng (st.k + 3)) (rng (st.k + 4)) res.1 res.2 with
    | some child => ⟨objs1, st.spawned ++ [child], st.k + 5⟩
    | none => ⟨objs1, st.spawned, st.k + 1⟩
  else st

/-- Body of the `objects.forEach` loop of `animate` for index `idx`:
integrate `objects[idx]` in place, then run the inner pair loop over
`i = idx+1, …, n-1`. -/
noncomputable def bodyStep (cfg : Config ℝ) (rng : Nat → ℝ)
    (width height : ℝ) (n : Nat) (st : TickState) (idx : Nat) : TickState :=
  let st1 : TickState :=
    ⟨st.objs.set idx
        (updateObject cfg width height (st.objs.getD idx defaultBody)),
      st.spawned, st.k⟩
  (List.range' (idx + 1) (n - (idx + 1))).foldl (pairStep cfg rng n idx) st1

/-- One tick of the `animate` loop: `newObjects = [...objects]` shares the
body objects with `objects`, every body is integrated and every pair
`i < j` of the start-of-tick array is tested, and the committed state is
the (mutated) original array followed by the children pushed during the
tick. -/
noncomputable def animateTick (cfg : Config ℝ) (width height : ℝ)
    (rng : Nat → ℝ) (objects : List (Body ℝ)) : List (Body ℝ) :=
  let n := objects.length
  let final := (List.range n).foldl (bodyStep cfg rng width height n) ⟨objects, [], 0⟩
  final.objs ++ final.spawned

/-- The default configuration of the component, over `ℝ`. -/
noncomputable def cfgW : Config ℝ :=
  { gravity := 1 / 5, friction := 99 / 100, bounceFriction := 7 / 10,
    drag := 99 / 100, maxObjects := 20, angularVelocityFactor := 1 / 20,
    objectCount := 5 }

/-- A concrete body used by witnesses. -/
noncomputable def bW : Body ℝ :=
  { x := 100, y := 100, width := 40, height := 40, sprite := 0,
    velocityX := 3, velocityY := -2, angle := 0, angularVelocity := 0,
    scale := 1, mass := 1, reproductionChance := some (1 / 100) }

/-- A concrete body entering an integrator step with scale 1.49. -/
noncomputable def b149 : Body ℝ :=
  { bW with scale := 149 / 100 }

/-- Square-root evaluation used by concrete collision computations. -/
lemma sqrt_sixteen : Real.sqrt 16 = 4 := by
  rw [show (16 : ℝ) = 4 ^ 2 by norm_num, Real.sqrt_sq (by norm_num : (0 : ℝ) ≤ 4)]

/-- Square-root evaluation used by concrete collision computations. -/
lemma sqrt_sixtyfour : Real.sqrt 64 = 8 := by
  rw [show (64 : ℝ) = 8 ^ 2 by norm_num, Real.sqrt_sq (by norm_num : (0 : ℝ) ≤ 8)]

/-- Square-root evaluation used by concrete collision computations. -/
lemma sqrt_hundred : Real.sqrt 100 = 10 := by
  rw [show (100 : ℝ) = 10 ^ 2 by norm_num, Real.sqrt_sq (by norm_num : (0 : ℝ) ≤ 10)]

/-- A resolver call on two bodies with identical velocity vectors leaves
both bodies unchanged: the relative velocity is zero, so the guard falls
through to a zero impulse. -/
lemma handleCollisionResponse_of_rel_zero (a b : Body ℝ)
    (h1 : a.velocityX - b.velocityX = 0) (h2 : a.velocityY - b.velocityY = 0) :
    handleCollisionResponse a b = (a, b) := by
  simp [handleCollisionResponse, h1, h2]

/-- C5: for every body whose width and height do not exceed the viewport
dimensions, after one integrator step the position satisfies
`x ∈ [width/2, viewportWidth - width/2]` and
`y ∈ [height/2, viewportHeight - height/2]`, independently of the
wall-bounce branch taken in the same step. -/
theorem clamp_enforces_bounds (cfg : Config ℝ) (W H : ℝ) (b : Body ℝ)
    (hw : b.width ≤ W) (hh : b.height ≤ H) :
    b.width / 2 ≤ (updateObject cfg W H b).x ∧
      (updateObject cfg W H b).x ≤ W - b.width / 2 ∧
      b.height / 2 ≤ (updateObject cfg W H b).y ∧
      (updateObject cfg W H b).y ≤ H - b.height / 2 := by
  refine ⟨?_, ?_, ?_, ?_⟩ <;> simp only [updateObject]
  · exact le_min (le_max_left _ _) (by linarith)
  · exact min_le_right _ _
  · exact le_min (le_max_left _ _) (by linarith)
  · exact min_le_right _ _

/-- Witness for C5 at a concrete body and viewport. -/
theorem clamp_enforces_bounds_witness :
    bW.width ≤ (1000 : ℝ) ∧ bW.height ≤ (1000 : ℝ) ∧
      (bW.width / 2 ≤ (updateObject cfgW 1000 1000 bW).x ∧
        (updateObject cfgW 1000 1000 bW).x ≤ 1000 - bW.width / 2 ∧
        bW.height / 2 ≤ (updateObject cfgW 1000 1000 bW).y ∧
        (updateObject cfgW 1000 1000 bW).y ≤ 1000 - bW.height / 2) :=
  ⟨by norm_num [bW], by norm_num [bW],
    clamp_enforces_bounds cfgW 1000 1000 bW (by norm_num [bW]) (by norm_num [bW])⟩

/-- C7: the collision test is symmetric in its two arguments. -/
theorem detectCollisions_symm (a b : Body ℝ) :
    detectCollisions a b = detectCollisions b a := by
  simp only [detectCollisions]
  rw [decide_eq_decide,
    show (a.x - b.x) * (a.x - b.x) + (a.y - b.y) * (a.y - b.y) =
      (b.x - a.x) * (b.x - a.x) + (b.y - a.y) * (b.y - a.y) by ring,
    show a.width + b.width = b.width + a.width by ring]

/-- C8 amended: the source checks the reset condition first and adds 0.01
afterwards, so the post-step scale is `(if scale ≥ 1.5 then 1 else scale)
+ 0.01`; it is bounded by `max (scale + 0.01) 1.01` but can reach exactly
1.5 (from an entering scale of 1.49), so it is not strictly below 1.5. -/
theorem scale_reset_then_add (cfg : Config ℝ) (W H : ℝ) (b : Body ℝ) :
    (updateObject cfg W H b).scale =
      (if b.scale ≥ 3 / 2 then 1 else b.scale) + 1 / 100 ∧
      (updateObject cfg W H b).scale ≤ max (b.scale + 1 / 100) (101 / 100) := by
  constructor
  · simp only [updateObject]
  · simp only [updateObject]
    split_ifs with h
    · exact le_max_of_le_right (by norm_num)
    · exact le_max_of_le_left (by norm_num)

/-- Witness for the amended C8 at a concrete body and configuration. -/
theorem scale_reset_then_add_witness :
    (updateObject cfgW 1000 1000 bW).scale =
      (if bW.scale ≥ 3 / 2 then 1 else bW.scale) + 1 / 100 ∧
      (updateObject cfgW 1000 1000 bW).scale ≤
        max (bW.scale + 1 / 100) (101 / 100) :=
  scale_reset_then_add cfgW 1000 1000 bW

/-- C8 counterexample: a body entering the step with scale 1.49 leaves it
with scale exactly 1.5, refuting the claim that the post-step scale is
always strictly below 1.5. -/
theorem scale_not_lt_3half :
    (updateObject cfgW 1000 1000 b149).scale = 3 / 2 ∧
      ¬ (updateObject cfgW 1000 1000 b149).scale < 3 / 2 := by
  constructor
  · simp only [updateObject, b149]
    norm_num
  · simp only [updateObject, b149]
    norm_num

/-- Two bodies approaching head-on along the x axis (closing speed 10). -/
noncomputable def bApp1 : Body ℝ :=
  { x := 0, y := 0, width := 40, height := 40, sprite := 0, velocityX := 5,
    velocityY := 0, angle := 0, angularVelocity := 0, scale := 1, mass := 1,
    reproductionChance := some (1 / 100) }

/-- Partner of `bApp1`, ten units to its right and moving towards it. -/
noncomputable def bApp2 : Body ℝ :=
  { bApp1 with x := 10, velocityX := -5 }

/-- Witness for C7 at a concrete pair of bodies. -/
theorem detectCollisions_symm_witness :
    detectCollisions bApp1 bApp2 = detectCollisions bApp2 bApp1 :=
  detectCollisions_symm bApp1 bApp2

/-- Two bodies separating along the x axis (closing speed -10). -/
noncomputable def bSep1 : Body ℝ :=
  { bApp1 with velocityX := -5 }

/-- Partner of `bSep1`, ten units to its right and moving away from it. -/
noncomputable def bSep2 : Body ℝ :=
  { bApp1 with x := 10, velocityX := 5 }

/-- C2 counterexample: for the approaching pair the closing speed is 10,
which is `≥ 0`, yet the resolver changes the first body's velocity (from 5
to -5), so the claim "closing speed ≥ 0 implies no-op" is false. -/
theorem resolver_acts_on_nonneg_speed :
    0 ≤ closingSpeed bApp1 bApp2 ∧
      (handleCollisionResponse bApp1 bApp2).1.velocityX ≠ bApp1.velocityX := by
  constructor
  · simp only [closingSpeed, bApp1, bApp2]
    norm_num [sqrt_hundred]
  · simp only [handleCollisionResponse, bApp1, bApp2]
    norm_num [sqrt_hundred]

/-- C2 amended: the early-return guard of the source is `speed < 0`, so
the resolver is a no-op exactly when the closing speed is strictly
negative (bodies separating along the normal); for a closing speed `≥ 0`
the impulse is applied. -/
theorem resolver_noop_on_neg_speed (a b : Body ℝ)
    (h : closingSpeed a b < 0) : handleCollisionResponse a b = (a, b) := by
  simp only [closingSpeed] at h
  simp only [handleCollisionResponse]
  rw [if_pos h]

/-- Witness for the amended C2 at a concrete separating pair. -/
theorem resolver_noop_on_neg_speed_witness :
    closingSpeed bSep1 bSep2 < 0 ∧
      handleCollisionResponse bSep1 bSep2 = (bSep1, bSep2) :=
  ⟨by simp only [closingSpeed, bSep1, bSep2, bApp1]; norm_num [sqrt_hundred],
    resolver_noop_on_neg_speed bSep1 bSep2
      (by simp only [closingSpeed, bSep1, bSep2, bApp1]; norm_num [sqrt_hundred])⟩

/-- First body of the head-on Scenario A pair, at the origin with
velocity (5, 0) and mass 1. -/
noncomputable def bHeadOn1 : Body ℝ :=
  { x := 0, y := 0, width := 10, height := 10, sprite := 0, velocityX := 5,
    velocityY := 0, angle := 0, angularVelocity := 0, scale := 1, mass := 1,
    reproductionChance := some (1 / 100) }

/-- Second body of the Scenario A pair, `d` units to the right of the
first, with velocity (-5, 0) and mass 1. -/
noncomputable def bHeadOn2 (d : ℝ) : Body ℝ :=
  { bHeadOn1 with x := d, velocityX := -5 }

/-- C6: two mass-1 bodies with velocities (5,0) and (-5,0) positioned to
collide head-on along the x axis (second body `d` units to the right,
`0 < d` below the collision threshold) have their velocities exactly
swapped by the resolver: (-5,0) and (5,0). -/
theorem head_on_swap (d : ℝ) (hd : 0 < d) (hcol : d < 10) :
    detectCollisions bHeadOn1 (bHeadOn2 d) = true ∧
      (handleCollisionResponse bHeadOn1 (bHeadOn2 d)).1.velocityX = -5 ∧
      (handleCollisionResponse bHeadOn1 (bHeadOn2 d)).1.velocityY = 0 ∧
      (handleCollisionResponse bHeadOn1 (bHeadOn2 d)).2.velocityX = 5 ∧
      (handleCollisionResponse bHeadOn1 (bHeadOn2 d)).2.velocityY = 0 := by
  have hsq : Real.sqrt ((d - 0) ^ 2 + (0 - 0) ^ 2) = d := by
    rw [show (d - 0) ^ 2 + ((0 : ℝ) - 0) ^ 2 = d ^ 2 by ring, Real.sqrt_sq hd.le]
  have hsq' : Real.sqrt ((0 - d) * (0 - d) + (0 - 0) * (0 - 0)) = d := by
    rw [show (0 - d) * (0 - d) + ((0 : ℝ) - 0) * (0 - 0) = d ^ 2 by ring,
      Real.sqrt_sq hd.le]
  refine ⟨?_, ?_⟩
  · simp only [detectCollisions, bHeadOn1, bHeadOn2, decide_eq_true_eq]
    rw [hsq']
    norm_num [hcol]
  · simp only [handleCollisionResponse, bHeadOn1, bHeadOn2]
    rw [hsq]
    have hne : d ≠ 0 := hd.ne'
    norm_num [div_self hne]

/-- Witness for C6 at distance 5. -/
theorem head_on_swap_witness :
    (0 : ℝ) < 5 ∧ (5 : ℝ) < 10 ∧
      (detectCollisions bHeadOn1 (bHeadOn2 5) = true ∧
        (handleCollisionResponse bHeadOn1 (bHeadOn2 5)).1.velocityX = -5 ∧
        (handleCollisionResponse bHeadOn1 (bHeadOn2 5)).1.velocityY = 0 ∧
        (handleCollisionResponse bHeadOn1 (bHeadOn2 5)).2.velocityX = 5 ∧
        (handleCollisionResponse bHeadOn1 (bHeadOn2 5)).2.velocityY = 0) :=
  ⟨by norm_num, by norm_num, head_on_swap 5 (by norm_num) (by norm_num)⟩

/-- C10: for bodies with positive masses and distinct centers the resolver
conserves total momentum exactly (in real arithmetic) on both axes,
whether or not the impulse branch is taken. -/
theorem momentum_conserved (a b : Body ℝ) (hma : 0 < a.mass)
    (hmb : 0 < b.mass) (hpos : (a.x, a.y) ≠ (b.x, b.y)) :
    (handleCollisionResponse a b).1.mass *
          (handleCollisionResponse a b).1.velocityX +
        (handleCollisionResponse a b).2.mass *
          (handleCollisionResponse a b).2.velocityX =
      a.mass * a.velocityX + b.mass * b.velocityX ∧
      (handleCollisionResponse a b).1.mass *
          (handleCollisionResponse a b).1.velocityY +
        (handleCollisionResponse a b).2.mass *
          (handleCollisionResponse a b).2.velocityY =
      a.mass * a.velocityY + b.mass * b.velocityY := by
  simp only [handleCollisionResponse]
  split_ifs with h
  · exact ⟨rfl, rfl⟩
  · constructor <;> ring

/-- Witness for C10 at a concrete colliding pair. -/
theorem momentum_conserved_witness :
    0 < bApp1.mass ∧ 0 < bApp2.mass ∧ (bApp1.x, bApp1.y) ≠ (bApp2.x, bApp2.y) ∧
      ((handleCollisionResponse bApp1 bApp2).1.mass *
            (handleCollisionResponse bApp1 bApp2).1.velocityX +
          (handleCollisionResponse bApp1 bApp2).2.mass *
            (handleCollisionResponse bApp1 bApp2).2.velocityX =
        bApp1.mass * bApp1.velocityX + bApp2.mass * bApp2.velocityX ∧
        (handleCollisionResponse bApp1 bApp2).1.mass *
            (handleCollisionResponse bApp1 bApp2).1.velocityY +
          (handleCollisionResponse bApp1 bApp2).2.mass *
            (handleCollisionResponse bApp1 bApp2).2.velocityY =
        bApp1.mass * bApp1.velocityY + bApp2.mass * bApp2.velocityY) :=
  ⟨by norm_num [bApp1], by norm_num [bApp2, bApp1],
    by simp [bApp1, bApp2, Prod.ext_iff],
    momentum_conserved bApp1 bApp2 (by norm_num [bApp1])
      (by norm_num [bApp2, bApp1]) (by simp [bApp1, bApp2, Prod.ext_iff])⟩

/-- C3: when the two centers coincide the resolver is not a no-op under JS
semantics: the normalization divides `0 / 0`, producing `NaN`, the guard
`speed < 0` is false on `NaN` so the early return is not taken, and the
`NaN` impulse is written into all four velocity components — every output
velocity is non-finite instead of unchanged. -/
theorem zero_distance_nan (px py v1x v1y m1 v2x v2y m2 : ℝ) :
    hcrJS px py v1x v1y m1 px py v2x v2y m2 = ((none, none), (none, none)) := by
  simp [hcrJS, jsSub, jsAdd, jsMul, jsDiv, jsSqrt, jsLt, sub_self,
    Real.sqrt_zero]

/-- Witness for C3 at concrete coincident centers. -/
theorem zero_distance_nan_witness :
    hcrJS 0 0 1 2 1 0 0 3 4 1 = ((none, none), (none, none)) :=
  zero_distance_nan 0 0 1 2 1 3 4 1

/-- The default ℚ-valued configuration, used by `decide`-evaluated
witnesses. -/
def cfgQ : Config ℚ :=
  { gravity := 1 / 5, friction := 99 / 100, bounceFriction := 7 / 10,
    drag := 99 / 100, maxObjects := 20, angularVelocityFactor := 1 / 20,
    objectCount := 5 }

/-- First parent for the reproduction witness, over ℚ. -/
def pQ1 : Body ℚ :=
  { x := 0, y := 0, width := 30, height := 30, sprite := 3, velocityX := 1,
    velocityY := 2, angle := 0, angularVelocity := 0, scale := 1, mass := 1,
    reproductionChance := some (1 / 100) }

/-- Second parent for the reproduction witness, over ℚ. -/
def pQ2 : Body ℚ :=
  { pQ1 with x := 10, width := 50, sprite := 4 }

/-- The child `reproduceObject` builds from `pQ1` and `pQ2` with all draws
equal to 0. -/
def childQ : Body ℚ :=
  { x := 5, y := 0, width := 40, height := 30, sprite := 3, velocityX := -5,
    velocityY := -5, angle := 0, angularVelocity := -(1 / 20), scale := 1,
    mass := 1, reproductionChance := none }

/-- Evaluation of `reproduceObject` at the concrete ℚ-valued parents with
all draws equal to 0: the guard passes (0 < 0.01 and 2 < 20) and the child
is `childQ`. -/
lemma reproduceObject_pQ_eval :
    reproduceObject cfgQ 2 0 0 0 0 0 pQ1 pQ2 = some childQ := by
  norm_num [reproduceObject, chanceLt, randomBetween, cfgQ, pQ1, pQ2, childQ]

/-- C4 counterexample: a successful reproduction returns a child whose
`reproductionChance` field is absent (the source literal omits it), not
equal to the first parent's 0.01 — so children can never reproduce. -/
theorem child_chance_missing :
    reproduceObject cfgQ 2 0 0 0 0 0 pQ1 pQ2 = some childQ ∧
      childQ.reproductionChance ≠ pQ1.reproductionChance := by
  refine ⟨reproduceObject_pQ_eval, ?_⟩
  simp [childQ, pQ1]

/-- C4 amended: whenever `reproduceObject` returns a child, the child sits
at the midpoint of the parents with averaged width and height, carries the
first parent's sprite handle, scale 1 and mass 1 — but its
`reproductionChance` field is absent (JS `undefined`), so children cannot
themselves reproduce. -/
theorem child_fields {α : Type} [LinearOrderedField α] (cfg : Config α)
    (objectsLen : Nat) (r rv1 rv2 ra rav : α) (a b c : Body α)
    (h : reproduceObject cfg objectsLen r rv1 rv2 ra rav a b = some c) :
    c.x = (a.x + b.x) / 2 ∧ c.y = (a.y + b.y) / 2 ∧
      c.width = (a.width + b.width) / 2 ∧ c.height = (a.height + b.height) / 2 ∧
      c.sprite = a.sprite ∧ c.scale = 1 ∧ c.mass = 1 ∧
      c.reproductionChance = none := by
  simp only [reproduceObject] at h
  split at h
  · cases h
    exact ⟨rfl, rfl, rfl, rfl, rfl, rfl, rfl, rfl⟩
  · cases h

/-- Witness for the amended C4 at the concrete ℚ-valued parents. -/
theorem child_fields_witness :
    childQ.x = (pQ1.x + pQ2.x) / 2 ∧ childQ.y = (pQ1.y + pQ2.y) / 2 ∧
      childQ.width = (pQ1.width + pQ2.width) / 2 ∧
      childQ.height = (pQ1.height + pQ2.height) / 2 ∧
      childQ.sprite = pQ1.sprite ∧ childQ.scale = 1 ∧ childQ.mass = 1 ∧
      childQ.reproductionChance = none :=
  child_fields cfgQ 2 0 0 0 0 0 pQ1 pQ2 childQ reproduceObject_pQ_eval

/-- A member of the promise list that rejects makes `Promise.all` reject. -/
lemma promiseAll_error {ε α : Type} (l : List (Except ε α))
    (h : ∃ e, Except.error e ∈ l) : ∃ e, promiseAll l = Except.error e := by
  induction l with
  | nil => rcases h with ⟨e, he⟩; cases he
  | cons hd tl ih =>
    rcases h with ⟨e, he⟩
    rcases List.mem_cons.mp he with heq | hmem
    · subst heq
      exact ⟨e, rfl⟩
    · cases hd with
      | ok a =>
        rcases ih ⟨e, hmem⟩ with ⟨e'', h''⟩
        exact ⟨e'', by simp only [promiseAll, h'']⟩
      | error e' =>
        exact ⟨e', rfl⟩

/-- C9: if any configured sprite URL fails to resolve, `createObjects`
rejects as a whole — the `Promise.all` batch wait is all-or-nothing, no
placeholder is substituted, and no body set (of any size) is produced.
This contradicts the documented fallback-on-failure behaviour. -/
theorem failed_sprite_fails_initialization {α : Type} [LinearOrderedField α]
    (cfg : Config α) (innerWidth innerHeight : α) (rng : Nat → α)
    (resolve : String → Option Nat) (userImages : List String) (u : String)
    (hu : u ∈ userImages) (hfail : resolve u = none) :
    ∃ e, createObjects cfg innerWidth innerHeight rng resolve userImages =
      Except.error e := by
  have herr : ∃ e, Except.error e ∈ userImages.map (loadImage resolve) := by
    refine ⟨u, ?_⟩
    have : loadImage resolve u = Except.error u := by
      simp only [loadImage, hfail]
    exact this ▸ List.mem_map_of_mem (loadImage resolve) hu
  rcases promiseAll_error _ herr with ⟨e, he⟩
  exact ⟨e, by simp only [createObjects, he]⟩

/-- A sprite-resolution oracle under which the URL "bad" fails and every
other URL resolves to handle 7. -/
def resolveQ : String → Option Nat :=
  fun u => if u = "bad" then none else some 7

/-- Witness for C9: with image list ["good", "bad"] the whole
initialization rejects. -/
theorem failed_sprite_fails_initialization_witness :
    "bad" ∈ ["good", "bad"] ∧ resolveQ "bad" = none ∧
      ∃ e, createObjects cfgQ 800 600 (fun _ => 0) resolveQ ["good", "bad"] =
        Except.error e :=
  ⟨by decide, by decide,
    failed_sprite_fails_initialization cfgQ 800 600 (fun _ => 0) resolveQ
      ["good", "bad"] "bad" (by decide) (by decide)⟩

/-- Configuration for the population-cap scenario: no gravity, no drag
loss, no spin, and a cap of 4 objects. -/
noncomputable def cfgT : Config ℝ :=
  { gravity := 0, friction := 99 / 100, bounceFriction := 7 / 10, drag := 1,
    maxObjects := 4, angularVelocityFactor := 0, objectCount := 3 }

/-- The constant-zero draw stream: every `Math.random()` call returns 0,
so every reproduction guard passes. -/
noncomputable def rng0 : Nat → ℝ := fun _ => 0

/-- First body of the cap scenario: stationary at (100, 100). -/
noncomputable def tA : Body ℝ :=
  { x := 100, y := 100, width := 12, height := 12, sprite := 0,
    velocityX := 0, velocityY := 0, angle := 0, angularVelocity := 0,
    scale := 1, mass := 1, reproductionChance := some (1 / 100) }

/-- Second body of the cap scenario, 4 units to the right of `tA`. -/
noncomputable def tB : Body ℝ :=
  { x := 104, y := 100, width := 12, height := 12, sprite := 1,
    velocityX := 0, velocityY := 0, angle := 0, angularVelocity := 0,
    scale := 1, mass := 1, reproductionChance := some (1 / 100) }

/-- Third body of the cap scenario, 8 units to the right of `tA`. -/
noncomputable def tC : Body ℝ :=
  { x := 108, y := 100, width := 12, height := 12, sprite := 2,
    velocityX := 0, velocityY := 0, angle := 0, angularVelocity := 0,
    scale := 1, mass := 1, reproductionChance := some (1 / 100) }

/-- `tA` after one integrator step under `cfgT` (only the scale moved). -/
noncomputable def tA' : Body ℝ :=
  { tA with scale := 101 / 100 }

/-- `tB` after one integrator step under `cfgT`. -/
noncomputable def tB' : Body ℝ :=
  { tB with scale := 101 / 100 }

/-- `tC` after one integrator step under `cfgT`. -/
noncomputable def tC' : Body ℝ :=
  { tC with scale := 101 / 100 }

/-- Child spawned by the pair (`tA'`, `tB`). -/
noncomputable def tc01 : Body ℝ :=
  { x := 102, y := 100, width := 12, height := 12, sprite := 0,
    velocityX := -5, velocityY := -5, angle := 0, angularVelocity := 0,
    scale := 1, mass := 1, reproductionChance := none }

/-- Child spawned by the pair (`tA'`, `tC`). -/
noncomputable def tc02 : Body ℝ :=
  { tc01 with x := 104 }

/-- Child spawned by the pair (`tB'`, `tC`). -/
noncomputable def tc12 : Body ℝ :=
  { tc01 with x := 106, sprite := 1 }

/-- Integrator evaluation on `tA` under `cfgT`. -/
lemma updateObject_tA : updateObject cfgT 1000 1000 tA = tA' := by
  norm_num [updateObject, cfgT, tA, tA', Body.mk.injEq, min_def, max_def]

/-- Integrator evaluation on `tB` under `cfgT`. -/
lemma updateObject_tB : updateObject cfgT 1000 1000 tB = tB' := by
  norm_num [updateObject, cfgT, tB, tB', Body.mk.injEq, min_def, max_def]

/-- Integrator evaluation on `tC` under `cfgT`. -/
lemma updateObject_tC : updateObject cfgT 1000 1000 tC = tC' := by
  norm_num [updateObject, cfgT, tC, tC', Body.mk.injEq, min_def, max_def]

/-- `tA'` and `tB` collide (distance 4 < 12). -/
lemma detect_tA'_tB : detectCollisions tA' tB = true := by
  simp only [detectCollisions, tA', tA, tB, decide_eq_true_eq]
  norm_num [sqrt_sixteen]

/-- `tA'` and `tC` collide (distance 8 < 12). -/
lemma detect_tA'_tC : detectCollisions tA' tC = true := by
  simp only [detectCollisions, tA', tA, tC, decide_eq_true_eq]
  norm_num [sqrt_sixtyfour]

/-- `tB'` and `tC` collide (distance 4 < 12). -/
lemma detect_tB'_tC : detectCollisions tB' tC = true := by
  simp only [detectCollisions, tB', tB, tC, decide_eq_true_eq]
  norm_num [sqrt_sixteen]

/-- The resolver is inert on the stationary pair (`tA'`, `tB`). -/
lemma hcr_tA'_tB : handleCollisionResponse tA' tB = (tA', tB) :=
  handleCollisionResponse_of_rel_zero _ _ (by norm_num [tA', tA, tB])
    (by norm_num [tA', tA, tB])

/-- The resolver is inert on the stationary pair (`tA'`, `tC`). -/
lemma hcr_tA'_tC : handleCollisionResponse tA' tC = (tA', tC) :=
  handleCollisionResponse_of_rel_zero _ _ (by norm_num [tA', tA, tC])
    (by norm_num [tA', tA, tC])

/-- The resolver is inert on the stationary pair (`tB'`, `tC`). -/
lemma hcr_tB'_tC : handleCollisionResponse tB' tC = (tB', tC) :=
  handleCollisionResponse_of_rel_zero _ _ (by norm_num [tB', tB, tC])
    (by norm_num [tB', tB, tC])

/-- Reproduction of (`tA'`, `tB`) under the zero draw stream: the stale
check `3 < 4` passes, so a child is produced. -/
lemma rep_tA'_tB (k1 k2 k3 k4 k5 : Nat) :
    reproduceObject cfgT 3 (rng0 k1) (rng0 k2) (rng0 k3) (rng0 k4) (rng0 k5)
      tA' tB = some tc01 := by
  norm_num [reproduceObject, chanceLt, randomBetween, cfgT, rng0, tA', tA, tB,
    tc01, Body.mk.injEq]

/-- Reproduction of (`tA'`, `tC`) under the zero draw stream. -/
lemma rep_tA'_tC (k1 k2 k3 k4 k5 : Nat) :
    reproduceObject cfgT 3 (rng0 k1) (rng0 k2) (rng0 k3) (rng0 k4) (rng0 k5)
      tA' tC = some tc02 := by
  norm_num [reproduceObject, chanceLt, randomBetween, cfgT, rng0, tA', tA, tC,
    tc02, tc01, Body.mk.injEq]

/-- Reproduction of (`tB'`, `tC`) under the zero draw stream. -/
lemma rep_tB'_tC (k1 k2 k3 k4 k5 : Nat) :
    reproduceObject cfgT 3 (rng0 k1) (rng0 k2) (rng0 k3) (rng0 k4) (rng0 k5)
      tB' tC = some tc12 := by
  norm_num [reproduceObject, chanceLt, randomBetween, cfgT, rng0, tB', tB, tC,
    tc12, tc01, Body.mk.injEq]

/-- Evaluation of one inner-loop iteration in the colliding-and-spawning
case, driven by the facts established for the concrete pair. -/
lemma pairStep_eval (cfg : Config ℝ) (rng : Nat → ℝ) (n idx : Nat)
    (st : TickState) (i : Nat) (o o2 c : Body ℝ)
    (ho : st.objs.getD idx defaultBody = o)
    (ho2 : st.objs.getD i defaultBody = o2)
    (hdet : detectCollisions o o2 = true)
    (hres : handleCollisionResponse o o2 = (o, o2))
    (hset : (st.objs.set idx o).set i o2 = st.objs)
    (hrep : reproduceObject cfg n (rng st.k) (rng (st.k + 1)) (rng (st.k + 2))
      (rng (st.k + 3)) (rng (st.k + 4)) o o2 = some c) :
    pairStep cfg rng n idx st i = ⟨st.objs, st.spawned ++ [c], st.k + 5⟩ := by
  simp only [pairStep, ho, ho2, hdet, hres, hset, hrep, if_true]

/-- Inner-loop iteration for the pair (0, 1) of the cap scenario. -/
lemma pair01 :
    pairStep cfgT rng0 3 0 ⟨[tA', tB, tC], [], 0⟩ 1 =
      ⟨[tA', tB, tC], [tc01], 5⟩ :=
  pairStep_eval cfgT rng0 3 0 ⟨[tA', tB, tC], [], 0⟩ 1 tA' tB tc01 rfl rfl
    detect_tA'_tB hcr_tA'_tB rfl (rep_tA'_tB 0 1 2 3 4)

/-- Inner-loop iteration for the pair (0, 2) of the cap scenario. -/
lemma pair02 :
    pairStep cfgT rng0 3 0 ⟨[tA', tB, tC], [tc01], 5⟩ 2 =
      ⟨[tA', tB, tC], [tc01, tc02], 10⟩ :=
  pairStep_eval cfgT rng0 3 0 ⟨[tA', tB, tC], [tc01], 5⟩ 2 tA' tC tc02 rfl rfl
    detect_tA'_tC hcr_tA'_tC rfl (rep_tA'_tC 5 6 7 8 9)

/-- Inner-loop iteration for the pair (1, 2) of the cap scenario. -/
lemma pair12 :
    pairStep cfgT rng0 3 1 ⟨[tA', tB', tC], [tc01, tc02], 10⟩ 2 =
      ⟨[tA', tB', tC], [tc01, tc02, tc12], 15⟩ :=
  pairStep_eval cfgT rng0 3 1 ⟨[tA', tB', tC], [tc01, tc02], 10⟩ 2 tB' tC tc12
    rfl rfl detect_tB'_tC hcr_tB'_tC rfl (rep_tB'_tC 10 11 12 13 14)

/-- Outer-loop iteration for index 0 of the cap scenario. -/
lemma body0 :
    bodyStep cfgT rng0 1000 1000 3 ⟨[tA, tB, tC], [], 0⟩ 0 =
      ⟨[tA', tB, tC], [tc01, tc02], 10⟩ := by
  have h1 : [tA, tB, tC].set 0
      (updateObject cfgT 1000 1000 ([tA, tB, tC].getD 0 defaultBody)) =
      [tA', tB, tC] := by
    rw [show [tA, tB, tC].getD 0 defaultBody = tA from rfl, updateObject_tA]
    rfl
  simp only [bodyStep, h1]
  rw [show List.range' (0 + 1) (3 - (0 + 1)) = [1, 2] from rfl,
    List.foldl_cons, List.foldl_cons, List.foldl_nil, pair01, pair02]

/-- Outer-loop iteration for index 1 of the cap scenario. -/
lemma body1 :
    bodyStep cfgT rng0 1000 1000 3 ⟨[tA', tB, tC], [tc01, tc02], 10⟩ 1 =
      ⟨[tA', tB', tC], [tc01, tc02, tc12], 15⟩ := by
  have h1 : [tA', tB, tC].set 1
      (updateObject cfgT 1000 1000 ([tA', tB, tC].getD 1 defaultBody)) =
      [tA', tB', tC] := by
    rw [show [tA', tB, tC].getD 1 defaultBody = tB from rfl, updateObject_tB]
    rfl
  simp only [bodyStep, h1]
  rw [show List.range' (1 + 1) (3 - (1 + 1)) = [2] from rfl,
    List.foldl_cons, List.foldl_nil, pair12]

/-- Outer-loop iteration for index 2 of the cap scenario (no pairs left). -/
lemma body2 :
    bodyStep cfgT rng0 1000 1000 3 ⟨[tA', tB', tC], [tc01, tc02, tc12], 15⟩ 2 =
      ⟨[tA', tB', tC'], [tc01, tc02, tc12], 15⟩ := by
  have h1 : [tA', tB', tC].set 2
      (updateObject cfgT 1000 1000 ([tA', tB', tC].getD 2 defaultBody)) =
      [tA', tB', tC'] := by
    rw [show [tA', tB', tC].getD 2 defaultBody = tC from rfl, updateObject_tC]
    rfl
  simp only [bodyStep, h1]
  rw [show List.range' (2 + 1) (3 - (2 + 1)) = ([] : List Nat) from rfl,
    List.foldl_nil]

/-- C1: the committed body set of one tick can exceed `maxObjects`.  With
`maxObjects = 4`, three stationary mutually colliding bodies, and every
reproduction draw succeeding, the stale guard `objects.length <
maxObjects` (3 < 4) passes for all three colliding pairs, so the tick
commits 6 bodies — the population-cap invariant I1 is violated because the
check ignores children already spawned in the same tick. -/
theorem tick_exceeds_maxObjects :
    cfgT.maxObjects = 4 ∧
      (animateTick cfgT 1000 1000 rng0 [tA, tB, tC]).length = 6 := by
  constructor
  · rfl
  · simp only [animateTick]
    rw [show [tA, tB, tC].length = 3 from rfl,
      show List.range 3 = [0, 1, 2] from rfl,
      List.foldl_cons, List.foldl_cons, List.foldl_cons, List.foldl_nil,
      body0, body1, body2]
    rfl

end Physico
